import Mathlib

/-!
# Verification of the query gateway in `src/app.py`

A shallow embedding of the visible logic of the Gradio front-end:

* the startup sequence (environment-credential check, engine construction,
  interface construction, launch), modelled as a straight-line trace that
  stops where the Python `raise ValueError(...)` fires;
* the callback `process_query(query, timeout)`, with the external
  collaboration engine modelled as an arbitrary function from the exact
  arguments of the call to either a returned string or a raised exception
  message.

Python conventions modelled explicitly:

* a raised exception is an `Except.error` carrying the exception message;
* the `query` parameter is an `Option String`, so that the Python value
  `None` (here `none`) is distinguished from a string; Python truthiness
  of that value (the `not query` test) and the attribute call
  `query.strip()` (which raises `AttributeError` on `None`) are separate
  definitions;
* the guard `not query or query.strip() == ""` is evaluated with the
  short-circuit of Python: `query.strip()` is only evaluated when
  `not query` is false;
* `str.strip()` removes leading and trailing whitespace characters, given
  here as a structural function on the character list of the string.
-/

/-- The outcome of a Python call: a normal return value, or a raised
exception carrying its message. -/
abbrev PyResult (α : Type) := Except String α

/-- The external collaboration engine (`system.process_query`), out of
scope in the repository: an arbitrary function from the exact arguments of
the call `system.process_query(query, timeout=timeout)` to a returned
string or a raised exception. -/
abbrev Engine := Option String → Int → PyResult String

/-- Python truthiness of the optional string `query`: `None` and the empty
string are falsy, every other string is truthy.  This is the (negation of
the) `not query` test on line 35 of `src/app.py`. -/
def pyFalsy : Option String → Bool
  | none => true
  | some s => s.isEmpty

/-- Removal of leading and trailing whitespace from a character list:
drop the whitespace front run, then the whitespace back run. -/
def pyStripList (l : List Char) : List Char :=
  ((l.dropWhile Char.isWhitespace).reverse.dropWhile Char.isWhitespace).reverse

/-- The result of `s.strip()` on an actual string `s`. -/
def pyStripStr (s : String) : String :=
  String.mk (pyStripList s.data)

/-- The attribute call `query.strip()`: on a string it removes surrounding
whitespace, on `None` it raises `AttributeError`. -/
def pyStrip : Option String → PyResult String
  | none => Except.error "AttributeError: NoneType object has no attribute strip"
  | some s => Except.ok (pyStripStr s)

/-- The guard `not query or query.strip() == ""` on line 35 of
`src/app.py`, with the short-circuit of Python: the `strip` call is reached
only when `query` is truthy. -/
def blankCheck (query : Option String) : PyResult Bool :=
  if pyFalsy query then Except.ok true
  else
    match pyStrip query with
    | Except.ok s => Except.ok (s == "")
    | Except.error e => Except.error e

/-- The warning string returned for blank input (line 36 of `src/app.py`). -/
def emptyWarning : String := "⚠️ Please enter a question or task."

/-- The retry hint appended to every engine-fault message (line 42 of
`src/app.py`). -/
def retryHint : String := "\n\nPlease try again or reduce the timeout value."

/-- The diagnostic string built from a caught engine exception message,
line 42 of `src/app.py`:
`f"❌ Error: {str(e)}\n\nPlease try again or reduce the timeout value."` -/
def errorReply (m : String) : String := "❌ Error: " ++ m ++ retryHint

/-- The callback `process_query(query, timeout)` of `src/app.py`
(lines 24–42).  The blank-input guard sits outside the `try`, so a fault
raised while evaluating it would propagate (outer `Except.error`); a fault
raised by the engine inside the `try` is caught and converted to a string. -/
def process_query (system : Engine) (query : Option String) (timeout : Int) :
    PyResult String :=
  match blankCheck query with
  | Except.error e => Except.error e
  | Except.ok true => Except.ok emptyWarning
  | Except.ok false =>
    match system query timeout with
    | Except.ok result => Except.ok result
    | Except.error e => Except.ok (errorReply e)

/-- Instrumented variant of `process_query` with the same control flow,
additionally recording every invocation of the engine together with the
exact arguments passed to it.  The second component is the list of engine
calls, in order. -/
def process_query_calls (system : Engine) (query : Option String) (timeout : Int) :
    PyResult String × List (Option String × Int) :=
  match blankCheck query with
  | Except.error e => (Except.error e, [])
  | Except.ok true => (Except.ok emptyWarning, [])
  | Except.ok false =>
    match system query timeout with
    | Except.ok result => (Except.ok result, [(query, timeout)])
    | Except.error e => (Except.ok (errorReply e), [(query, timeout)])

/-- One observable step of the module-level startup sequence of
`src/app.py`. -/
inductive StartupStep
  | loadEnv
  | constructEngine
  | buildInterface
  | launchUI
deriving DecidableEq, Repr

/-- Python truthiness of `os.getenv` applied to `OPENAI_API_KEY` (line 15
of `src/app.py`): the check passes iff the variable is present and
non-empty. -/
def apiKeyPresent : Option String → Bool
  | none => false
  | some v => !v.isEmpty

/-- The `ValueError` message raised on line 16 of `src/app.py`. -/
def missingKeyMsg : String :=
  "OPENAI_API_KEY not found in environment variables. Please set it in your .env file"

/-- The module-level startup of `src/app.py` (lines 12–21, 46, 129), as a
function of the value of the `OPENAI_API_KEY` environment variable: load
the environment, check the key (raising `ValueError` when it is absent or
empty, before anything else runs), then construct the engine singleton,
build the interface and launch it.  Returns the trace of executed steps
together with the outcome. -/
def runStartup (env : Option String) : List StartupStep × PyResult Unit :=
  if apiKeyPresent env then
    ([StartupStep.loadEnv, StartupStep.constructEngine,
      StartupStep.buildInterface, StartupStep.launchUI], Except.ok ())
  else
    ([StartupStep.loadEnv], Except.error missingKeyMsg)

/-! ## Evaluation lemmas shared by the claim theorems -/

/-- A blank string argument (empty, or whitespace-only) takes the warning
branch with no engine call.  Covers both disjuncts of the Python guard:
the empty string is falsy, and a non-empty whitespace-only string strips
to the empty string. -/
theorem process_query_calls_blank (system : Engine) (q : String) (t : Int)
    (h : pyStripStr q = "") :
    process_query_calls system (some q) t = (Except.ok emptyWarning, []) := by
  unfold process_query_calls blankCheck pyFalsy pyStrip
  by_cases hq : q.isEmpty
  · simp [hq]
  · simp [hq, h]

/-- A non-blank string argument passes the guard and reaches the engine
call with the original arguments. -/
theorem process_query_calls_nonblank (system : Engine) (q : String) (t : Int)
    (h : pyStripStr q ≠ "") :
    process_query_calls system (some q) t =
      (match system (some q) t with
       | Except.ok result => (Except.ok result, [(some q, t)])
       | Except.error e => (Except.ok (errorReply e), [(some q, t)])) := by
  have hq : q.isEmpty = false := by
    rcases Bool.eq_false_or_eq_true q.isEmpty with hq | hq
    · exact absurd (by rw [(String.isEmpty_iff q).mp hq]; rfl) h
    · exact hq
  have hb : (pyStripStr q == "") = false := by
    simp [h]
  unfold process_query_calls blankCheck pyFalsy pyStrip
  simp [hq, hb]

/-- `process_query` is the first component of the instrumented variant. -/
theorem process_query_eq_calls (system : Engine) (query : Option String) (t : Int) :
    process_query system query t = (process_query_calls system query t).1 := by
  unfold process_query process_query_calls
  cases blankCheck query with
  | error e => rfl
  | ok b =>
    cases b
    · cases system query t <;> rfl
    · rfl

/-- Blank-string evaluation of `process_query` itself. -/
theorem process_query_blank (system : Engine) (q : String) (t : Int)
    (h : pyStripStr q = "") :
    process_query system (some q) t = Except.ok emptyWarning := by
  rw [process_query_eq_calls, process_query_calls_blank system q t h]

/-- Non-blank evaluation of `process_query` itself. -/
theorem process_query_nonblank (system : Engine) (q : String) (t : Int)
    (h : pyStripStr q ≠ "") :
    process_query system (some q) t =
      (match system (some q) t with
       | Except.ok result => Except.ok result
       | Except.error e => Except.ok (errorReply e)) := by
  rw [process_query_eq_calls, process_query_calls_nonblank system q t h]
  cases system (some q) t <;> rfl

/-! ## Claim theorems -/

/-- C1: for every query string that is non-empty after stripping
whitespace and every integer timeout, when the engine call succeeds with
result `r`, `process_query` returns exactly `r`, unchanged. -/
theorem C1_engine_result_verbatim (system : Engine) (q r : String) (t : Int)
    (hq : pyStripStr q ≠ "") (hr : system (some q) t = Except.ok r) :
    process_query system (some q) t = Except.ok r := by
  rw [process_query_nonblank system q t hq, hr]

/-- Witness for C1 at the spec scenario: a stub engine returning
`"Answer X"` for `("What is X?", 90)`. -/
theorem C1_engine_result_verbatim_witness :
    pyStripStr "What is X?" ≠ "" ∧
    process_query (fun _ _ => Except.ok "Answer X") (some "What is X?") 90 =
      Except.ok "Answer X" :=
  ⟨by decide,
   C1_engine_result_verbatim (fun _ _ => Except.ok "Answer X") "What is X?"
     "Answer X" 90 (by decide) rfl⟩

/-- C2: for every query that strips to the empty string (empty or
whitespace-only) and every timeout, `process_query` returns exactly the
fixed warning string, and the engine is never invoked (the recorded call
trace is empty, for every engine). -/
theorem C2_blank_query_warning_no_engine_call (system : Engine) (q : String) (t : Int)
    (h : pyStripStr q = "") :
    process_query system (some q) t = Except.ok emptyWarning ∧
    (process_query_calls system (some q) t).2 = [] := by
  refine ⟨process_query_blank system q t h, ?_⟩
  rw [process_query_calls_blank system q t h]

/-- Witness for C2 at the spec scenario `answer("   ", 60)`, against an
engine stub whose invocation would be visible. -/
theorem C2_blank_query_warning_no_engine_call_witness :
    pyStripStr "   " = "" ∧
    (process_query (fun _ _ => Except.ok "never") (some "   ") 60 =
       Except.ok emptyWarning ∧
     (process_query_calls (fun _ _ => Except.ok "never") (some "   ") 60).2 = []) :=
  ⟨by decide,
   C2_blank_query_warning_no_engine_call (fun _ _ => Except.ok "never") "   " 60
     (by decide)⟩

/-- C3: for every non-blank query and every timeout, when the engine
raises a fault with message `m`, `process_query` catches it and returns a
string that is exactly the failure marker `"❌ Error: "` followed by `m`
followed by the retry hint — so it starts with `"❌ Error: " ++ m` — and
the retry hint mentions the timeout; the fault is not re-raised (the
result is a normal return, `Except.ok`). -/
theorem C3_engine_fault_converted (system : Engine) (q m : String) (t : Int)
    (hq : pyStripStr q ≠ "") (hm : system (some q) t = Except.error m) :
    process_query system (some q) t = Except.ok (("❌ Error: " ++ m) ++ retryHint) ∧
    ∃ a b, retryHint = a ++ "timeout" ++ b := by
  refine ⟨?_, "\n\nPlease try again or reduce the ", " value.", by decide⟩
  rw [process_query_nonblank system q t hq, hm]
  rfl

/-- Witness for C3 at the spec scenario: a stub engine raising
`RuntimeError("boom")` on `answer("Q", 30)`. -/
theorem C3_engine_fault_converted_witness :
    pyStripStr "Q" ≠ "" ∧
    (process_query (fun _ _ => Except.error "boom") (some "Q") 30 =
       Except.ok (("❌ Error: " ++ "boom") ++ retryHint) ∧
     ∃ a b, retryHint = a ++ "timeout" ++ b) :=
  ⟨by decide,
   C3_engine_fault_converted (fun _ _ => Except.error "boom") "Q" "boom" 30
     (by decide) rfl⟩

/-- C4: for every input — `None` query, blank query, engine success or
engine fault — `process_query` returns a string normally and never
propagates a raised exception to its caller. -/
theorem C4_always_returns_never_raises (system : Engine) (query : Option String)
    (t : Int) : ∃ s, process_query system query t = Except.ok s := by
  cases query with
  | none => exact ⟨emptyWarning, rfl⟩
  | some q =>
    by_cases h : pyStripStr q = ""
    · exact ⟨emptyWarning, process_query_blank system q t h⟩
    · rw [process_query_nonblank system q t h]
      cases hs : system (some q) t with
      | ok r => exact ⟨r, rfl⟩
      | error e => exact ⟨errorReply e, rfl⟩

/-- C5: when the `OPENAI_API_KEY` environment variable is absent or empty,
startup aborts with the configuration error before the engine is
constructed and before any UI is served; when it is present and
non-empty, startup succeeds and constructs the engine exactly once. -/
theorem C5_startup_key_check (env : Option String) :
    (apiKeyPresent env = false →
      (runStartup env).2 = Except.error missingKeyMsg ∧
      StartupStep.constructEngine ∉ (runStartup env).1 ∧
      StartupStep.launchUI ∉ (runStartup env).1) ∧
    (apiKeyPresent env = true →
      (runStartup env).2 = Except.ok () ∧
      (runStartup env).1.count StartupStep.constructEngine = 1) := by
  unfold runStartup
  rcases Bool.eq_false_or_eq_true (apiKeyPresent env) with h | h
  · simp [h]
  · simp [h]

/-- Witness for C5 at three concrete environments: variable absent,
variable empty, and variable set to a non-empty key. -/
theorem C5_startup_key_check_witness :
    apiKeyPresent none = false ∧
    (runStartup none).2 = Except.error missingKeyMsg ∧
    StartupStep.constructEngine ∉ (runStartup none).1 ∧
    apiKeyPresent (some "") = false ∧
    (runStartup (some "")).2 = Except.error missingKeyMsg ∧
    apiKeyPresent (some "sk-test") = true ∧
    (runStartup (some "sk-test")).1.count StartupStep.constructEngine = 1 :=
  ⟨rfl,
   ((C5_startup_key_check none).1 rfl).1,
   ((C5_startup_key_check none).1 rfl).2.1,
   rfl,
   ((C5_startup_key_check (some "")).1 rfl).1,
   rfl,
   ((C5_startup_key_check (some "sk-test")).2 rfl).2⟩

/-- C6: against one and the same deterministic engine (a pure function of
query and timeout), two calls of `process_query` with identical arguments
yield identical outputs — the gateway keeps no mutable state between
calls, so its output is a function of its arguments alone. -/
theorem C6_repeat_call_deterministic (system : Engine) (q1 q2 : Option String)
    (t1 t2 : Int) (hq : q1 = q2) (ht : t1 = t2) :
    process_query system q1 t1 = process_query system q2 t2 := by
  rw [hq, ht]

/-- Witness for C6: two calls at `("Q", 120)` against a stub engine. -/
theorem C6_repeat_call_deterministic_witness :
    process_query (fun _ _ => Except.ok "A") (some "Q") 120 =
      process_query (fun _ _ => Except.ok "A") (some "Q") 120 :=
  C6_repeat_call_deterministic (fun _ _ => Except.ok "A") (some "Q") (some "Q")
    120 120 rfl rfl

/-- C7: for every non-blank query and every integer timeout `t` —
including values outside `[30, 300]` — the engine is invoked exactly once
and the timeout it receives is exactly `t`: no validation, clamping or
transformation. -/
theorem C7_timeout_passed_unchanged (system : Engine) (q : String) (t : Int)
    (hq : pyStripStr q ≠ "") :
    (process_query_calls system (some q) t).2.map Prod.snd = [t] := by
  rw [process_query_calls_nonblank system q t hq]
  cases system (some q) t <;> rfl

/-- Witness for C7 at the out-of-range timeout `1000`. -/
theorem C7_timeout_passed_unchanged_witness :
    pyStripStr "Q" ≠ "" ∧
    (process_query_calls (fun _ _ => Except.ok "A") (some "Q") 1000).2.map
      Prod.snd = [1000] :=
  ⟨by decide,
   C7_timeout_passed_unchanged (fun _ _ => Except.ok "A") "Q" 1000 (by decide)⟩

/-- C8: for every query that is non-empty after stripping, the engine
receives the original query value untrimmed — leading and trailing
whitespace is preserved in the forwarded argument. -/
theorem C8_query_forwarded_untrimmed (system : Engine) (q : String) (t : Int)
    (hq : pyStripStr q ≠ "") :
    (process_query_calls system (some q) t).2.map Prod.fst = [some q] := by
  rw [process_query_calls_nonblank system q t hq]
  cases system (some q) t <;> rfl

/-- Witness for C8 at a query with surrounding whitespace: the engine
receives `"  hi  "` itself, not its stripped form. -/
theorem C8_query_forwarded_untrimmed_witness :
    pyStripStr "  hi  " ≠ "" ∧
    (process_query_calls (fun _ _ => Except.ok "A") (some "  hi  ") 120).2.map
      Prod.fst = [some "  hi  "] :=
  ⟨by decide,
   C8_query_forwarded_untrimmed (fun _ _ => Except.ok "A") "  hi  " 120
     (by decide)⟩

/-- C9: for every blank query (empty or whitespace-only), the output of
`process_query` does not depend on the timeout: any two timeouts give the
same result on the rejection path. -/
theorem C9_blank_timeout_noninterference (system : Engine) (q : String)
    (t1 t2 : Int) (h : pyStripStr q = "") :
    process_query system (some q) t1 = process_query system (some q) t2 := by
  rw [process_query_blank system q t1 h, process_query_blank system q t2 h]

/-- Witness for C9 at the whitespace-only query with timeouts 30 and 300. -/
theorem C9_blank_timeout_noninterference_witness :
    pyStripStr "   " = "" ∧
    process_query (fun _ _ => Except.ok "A") (some "   ") 30 =
      process_query (fun _ _ => Except.ok "A") (some "   ") 300 :=
  ⟨by decide,
   C9_blank_timeout_noninterference (fun _ _ => Except.ok "A") "   " 30 300
     (by decide)⟩

/-- C10: when the query argument is the Python value `None`, the
truthiness test short-circuits the guard before `query.strip()` is
evaluated, so `process_query` returns the fixed warning normally instead
of raising — even though evaluating `strip` on `None` would raise
`AttributeError` (second conjunct). -/
theorem C10_none_query_short_circuit (system : Engine) (t : Int) :
    process_query system none t = Except.ok emptyWarning ∧
    ∃ msg, pyStrip none = Except.error msg :=
  ⟨rfl, "AttributeError: NoneType object has no attribute strip", rfl⟩
